import Mathlib

/-!
Verification of the multi-host health aggregation and log retrieval backend.
The definitions below are a shallow embedding of the JavaScript source:
`HealthCheckManager` (cache, remote execution, aggregation), `ConfigManager`
(host registry), the Express route handlers for host CRUD, and `LogManager`
(log source resolution).  Times are modelled as natural-number milliseconds,
JavaScript `Map` state as association lists, and the outcome of a network
call or subprocess as an `Except` value supplied by the environment.
-/

namespace BackendAI

/-- A single probe result (one element of a report's `checks` array). -/
structure Check where
  service_name : String
  status : String
  response_time_ms : Nat
  details : String
  timestamp : String
  error_message : Option String
  deriving Repr, DecidableEq

/-- A per-host health report, as produced by one probe execution. -/
structure HostReport where
  timestamp : String
  overall_status : String
  total_checks : Nat
  healthy_count : Nat
  unhealthy_count : Nat
  degraded_count : Nat
  unknown_count : Nat
  checks : List Check
  summary : String
  deriving Repr, DecidableEq

/-- A configured host in the registry (`ConfigManager.hosts` entries). -/
structure Host where
  id : String
  name : String
  host : String
  port : Nat
  type : String
  enabled : Bool
  description : String
  deriving Repr, DecidableEq

/-- A check tagged with its originating host, as pushed into
`combinedChecks` by `combineHealthResults`. -/
structure CombinedCheck where
  service_name : String
  status : String
  response_time_ms : Nat
  details : String
  timestamp : String
  error_message : Option String
  host_id : String
  host_name : String
  host_type : String
  deriving Repr, DecidableEq

/-- One element of the `hosts` summary array of a combined report. -/
structure HostStatusEntry where
  id : String
  name : String
  host : String
  port : Nat
  type : String
  status : String
  deriving Repr, DecidableEq

/-- The combined multi-host report returned by `combineHealthResults`. -/
structure UnifiedReport where
  timestamp : String
  overall_status : String
  total_checks : Nat
  healthy_count : Nat
  unhealthy_count : Nat
  degraded_count : Nat
  unknown_count : Nat
  checks : List CombinedCheck
  summary : String
  hosts : List HostStatusEntry
  deriving Repr, DecidableEq

/-- Outcome of one settled promise from `Promise.allSettled`: either the
host's report (fulfilled) or a rejection carrying `reason?.message`. -/
inductive Settled where
  | fulfilled (data : HostReport)
  | rejected (reasonMsg : Option String)
  deriving Repr, DecidableEq

/-- Tagging of one check with host identity, as done in the fulfilled
branch of `combineHealthResults` (spread of `check` plus host fields and
the name override). -/
def tagCheck (host : Host) (check : Check) : CombinedCheck :=
  { service_name := host.name ++ ": " ++ check.service_name
    status := check.status
    response_time_ms := check.response_time_ms
    details := check.details
    timestamp := check.timestamp
    error_message := check.error_message
    host_id := host.id
    host_name := host.name
    host_type := host.type }

/-- The synthetic connection-failure entry pushed by the rejected branch of
`combineHealthResults`. -/
def rejectedCheck (host : Host) (reasonMsg : Option String) (nowIso : String) :
    CombinedCheck :=
  { service_name := host.name ++ ": Connection"
    status := "Unhealthy"
    response_time_ms := 0
    details := "Failed to connect to " ++ host.host ++ ":" ++ toString host.port
    timestamp := nowIso
    error_message := some (reasonMsg.getD "Connection failed")
    host_id := host.id
    host_name := host.name
    host_type := host.type }

/-- The entries one (host, settled outcome) pair contributes to
`combinedChecks`: the tagged checks when fulfilled, the single synthetic
connection entry when rejected. -/
def hostEntries (nowIso : String) (p : Host × Settled) : List CombinedCheck :=
  match p.2 with
  | Settled.fulfilled data => data.checks.map (tagCheck p.1)
  | Settled.rejected reasonMsg => [rejectedCheck p.1 reasonMsg nowIso]

/-- Accumulator of the `results.forEach` loop in `combineHealthResults`. -/
structure CombineState where
  combinedChecks : List CombinedCheck
  totalHealthy : Nat
  totalUnhealthy : Nat
  totalDegraded : Nat
  totalUnknown : Nat
  overallStatus : String
  deriving Repr, DecidableEq

/-- One iteration of the `results.forEach` loop of `combineHealthResults`. -/
def combineStep (nowIso : String) (s : CombineState) (p : Host × Settled) :
    CombineState :=
  match p.2 with
  | Settled.fulfilled data =>
    { combinedChecks := s.combinedChecks ++ data.checks.map (tagCheck p.1)
      totalHealthy := s.totalHealthy + data.healthy_count
      totalUnhealthy := s.totalUnhealthy + data.unhealthy_count
      totalDegraded := s.totalDegraded + data.degraded_count
      totalUnknown := s.totalUnknown + data.unknown_count
      overallStatus :=
        if data.overall_status = "Unhealthy" then "Unhealthy"
        else if data.overall_status = "Degraded" ∧ s.overallStatus ≠ "Unhealthy"
          then "Degraded"
        else s.overallStatus }
  | Settled.rejected reasonMsg =>
    { combinedChecks := s.combinedChecks ++ [rejectedCheck p.1 reasonMsg nowIso]
      totalHealthy := s.totalHealthy
      totalUnhealthy := s.totalUnhealthy + 1
      totalDegraded := s.totalDegraded
      totalUnknown := s.totalUnknown
      overallStatus := "Unhealthy" }

/-- Initial accumulator of `combineHealthResults`. -/
def combineInit : CombineState :=
  { combinedChecks := []
    totalHealthy := 0
    totalUnhealthy := 0
    totalDegraded := 0
    totalUnknown := 0
    overallStatus := "Healthy" }

/-- `results.find((_, i) => hosts[i].id === host.id)` over the aligned
(host, result) pairs: the first settled outcome recorded under the host's
id. -/
def findResultFor (pairs : List (Host × Settled)) (h : Host) : Option Settled :=
  (pairs.find? (fun p => p.1.id = h.id)).map (fun p => p.2)

/-- The `hosts` summary entry built for one host in `combineHealthResults`:
`online` when the first settled result recorded under its id is fulfilled,
`offline` otherwise. -/
def hostSummaryEntry (pairs : List (Host × Settled)) (h : Host) :
    HostStatusEntry :=
  { id := h.id
    name := h.name
    host := h.host
    port := h.port
    type := h.type
    status :=
      match findResultFor pairs h with
      | some (Settled.fulfilled _) => "online"
      | _ => "offline" }

/-- `combineHealthResults(results, hosts)` over the aligned list of
(host, settled outcome) pairs.  `nowIso` stands for
`new Date().toISOString()`. -/
def combineHealthResults (pairs : List (Host × Settled)) (nowIso : String) :
    UnifiedReport :=
  let s := pairs.foldl (combineStep nowIso) combineInit
  { timestamp := nowIso
    overall_status := s.overallStatus
    total_checks := s.combinedChecks.length
    healthy_count := s.totalHealthy
    unhealthy_count := s.totalUnhealthy
    degraded_count := s.totalDegraded
    unknown_count := s.totalUnknown
    checks := s.combinedChecks
    summary := "Multi-host health check: " ++ toString s.totalHealthy ++
      " healthy, " ++ toString s.totalUnhealthy ++ " unhealthy, " ++
      toString s.totalDegraded ++ " degraded, " ++ toString s.totalUnknown ++
      " unknown out of " ++ toString s.combinedChecks.length ++
      " total services across " ++ toString pairs.length ++ " hosts"
    hosts := pairs.map (fun p => hostSummaryEntry pairs p.1) }

/-- Does the settled outcome force overall status `Unhealthy`?  True for a
rejected host and for a fulfilled report whose own overall status is
`Unhealthy`. -/
def outcomeUnhealthy (p : Host × Settled) : Bool :=
  match p.2 with
  | Settled.fulfilled data => data.overall_status = "Unhealthy"
  | Settled.rejected _ => true

/-- Does the settled outcome contribute a `Degraded` overall status? -/
def outcomeDegraded (p : Host × Settled) : Bool :=
  match p.2 with
  | Settled.fulfilled data => data.overall_status = "Degraded"
  | Settled.rejected _ => false

/-- The fixed-precedence overall status stated by the specification:
Unhealthy dominates, then Degraded, else Healthy. -/
def specOverallStatus (pairs : List (Host × Settled)) : String :=
  if pairs.any outcomeUnhealthy then "Unhealthy"
  else if pairs.any outcomeDegraded then "Degraded"
  else "Healthy"

/-- One cached value: the payload and the `Date.now()` at which it was
stored. -/
structure CacheEntry where
  data : HostReport
  timestamp : Nat
  deriving Repr, DecidableEq

/-- The manager's `this.cache` Map, keyed by `hostId-endpoint` strings. -/
abbrev Cache := List (String × CacheEntry)

/-- `this.cache.get(key)`. -/
def cacheGet (cache : Cache) (key : String) : Option CacheEntry :=
  (cache.find? (fun p => p.1 = key)).map (fun p => p.2)

/-- `this.cache.set(key, value)`: replaces an existing binding, else
appends. -/
def cacheSet (cache : Cache) (key : String) (value : CacheEntry) : Cache :=
  if cache.any (fun p => p.1 = key) then
    cache.map (fun p => if p.1 = key then (key, value) else p)
  else
    cache ++ [(key, value)]

/-- `this.cacheTimeout` from the `HealthCheckManager` constructor:
30000 milliseconds. -/
def cacheTimeout : Nat := 30000

/-- Key-level test of `key.startsWith(hostId + "-")`, modelled as a
character-list comparison. -/
def keyHasHostId (hostId : String) (key : String) : Bool :=
  (hostId ++ "-").data.isPrefixOf key.data

/-- `clearCache(hostId)`: with a host id, delete every entry whose key
starts with `hostId + "-"`; with no argument, clear the whole Map. -/
def clearCache (cache : Cache) (hostId : Option String) : Cache :=
  match hostId with
  | some id => cache.filter (fun p => ¬ keyHasHostId id p.1)
  | none => []

/-- The fabricated failure report returned by the catch branch of
`executeRemoteHealthCheck`, for the given error message. -/
def failureReport (host : Host) (nowIso : String) (errMsg : String) :
    HostReport :=
  { timestamp := nowIso
    overall_status := "Unhealthy"
    total_checks := 1
    healthy_count := 0
    unhealthy_count := 1
    degraded_count := 0
    unknown_count := 0
    checks := [{ service_name := host.name ++ " Connection"
                 status := "Unhealthy"
                 response_time_ms := 0
                 details := "Failed to connect to " ++ host.host ++ ":" ++
                   toString host.port ++ " - " ++ errMsg
                 timestamp := nowIso
                 error_message := some errMsg }]
    summary := "Failed to connect to host " ++ host.name }

/-- Result of one `executeRemoteHealthCheck` call: the returned data, the
cache state afterwards, and whether the HTTP probe was issued (false when
a fresh cache entry was served). -/
structure RemoteResult where
  data : HostReport
  cache : Cache
  probeCalled : Bool
  deriving Repr

/-- The try/catch body of `executeRemoteHealthCheck` after a cache miss:
issue the HTTP GET; on success cache and return the response data, on any
error return the fabricated failure report without caching it.  The
probe's outcome is supplied as an `Except` value. -/
def probeAndCache (host : Host) (cacheKey : String) (cache : Cache)
    (now : Nat) (nowIso : String) (probe : Except String HostReport) :
    RemoteResult :=
  match probe with
  | Except.ok data =>
    { data := data
      cache := cacheSet cache cacheKey { data := data, timestamp := now }
      probeCalled := true }
  | Except.error errMsg =>
    { data := failureReport host nowIso errMsg
      cache := cache
      probeCalled := true }

/-- `executeRemoteHealthCheck(host, endpoint)` as a function of the cache
state, the clock, and the probe outcome.  A cached entry is served only
when `now - cached.timestamp < cacheTimeout` (truncated subtraction, which
agrees with the JavaScript comparison for clocks that may step backwards). -/
def executeRemoteHealthCheck (host : Host) (endpoint : String)
    (cache : Cache) (now : Nat) (nowIso : String)
    (probe : Except String HostReport) : RemoteResult :=
  let cacheKey := host.id ++ "-" ++ endpoint
  match cacheGet cache cacheKey with
  | some cached =>
    if now - cached.timestamp < cacheTimeout then
      { data := cached.data, cache := cache, probeCalled := false }
    else
      probeAndCache host cacheKey cache now nowIso probe
  | none => probeAndCache host cacheKey cache now nowIso probe

/-- Probe environment: the outcome each underlying probe would have in
this cycle.  `localProbe` is the result of spawning the local health
checker binary; `remoteProbe host endpoint` is the outcome of the HTTP GET
against that host. -/
structure ProbeEnv where
  localProbe : Host → Except String HostReport
  remoteProbe : Host → String → Except String HostReport

/-- Dispatch for one host inside `getAllHealthChecks`: the local branch
spawns the checker binary (no cache involved; a failure rejects the
promise), the remote branch goes through `executeRemoteHealthCheck`
(which never rejects).  Returns the settled outcome, the cache state
afterwards, and whether the probe executor was invoked. -/
def runHost (env : ProbeEnv) (cache : Cache) (now : Nat) (nowIso : String)
    (endpoint : String) (host : Host) : Settled × Cache × Bool :=
  if host.type = "local" ∨ host.host = "localhost" then
    match env.localProbe host with
    | Except.ok data => (Settled.fulfilled data, cache, true)
    | Except.error msg => (Settled.rejected (some msg), cache, true)
  else
    let r := executeRemoteHealthCheck host endpoint cache now nowIso
      (env.remoteProbe host endpoint)
    (Settled.fulfilled r.data, r.cache, r.probeCalled)

/-- Fan-out over the enabled hosts (the `hosts.map` joined by
`Promise.allSettled`), linearized left to right: each host's distinct
cache key makes this equivalent to the concurrent interleaving.  Returns
the aligned (host, outcome) pairs, the final cache, and per-host
probe-invocation flags keyed by host id. -/
def runHosts (env : ProbeEnv) (cache : Cache) (now : Nat) (nowIso : String)
    (endpoint : String) :
    List Host → List (Host × Settled) × Cache × List (String × Bool)
  | [] => ([], cache, [])
  | h :: hs =>
    let r := runHost env cache now nowIso endpoint h
    let rest := runHosts env r.2.1 now nowIso endpoint hs
    ((h, r.1) :: rest.1, rest.2.1, (h.id, r.2.2) :: rest.2.2)

/-- Result of one aggregation cycle. -/
structure AggResult where
  report : UnifiedReport
  cache : Cache
  probeFlags : List (String × Bool)
  deriving Repr

/-- `getAllHealthChecks()`: read the enabled hosts, settle every host's
probe, and combine the outcomes.  `hosts` is the registry's host list
(`config.getEnabledHosts` filters it to the enabled ones). -/
def getAllHealthChecks (env : ProbeEnv) (hosts : List Host) (cache : Cache)
    (now : Nat) (nowIso : String) : AggResult :=
  let enabled := hosts.filter (fun h => h.enabled)
  let r := runHosts env cache now nowIso "/api/health/all" enabled
  { report := combineHealthResults r.1 nowIso
    cache := r.2.1
    probeFlags := r.2.2 }

/-- The request body of an add-host call (`hostConfig`): absent JSON
fields are `none`. -/
structure HostSpec where
  id : Option String
  name : String
  host : String
  port : Option Nat
  type : Option String
  enabled : Option Bool
  description : Option String
  deriving Repr, DecidableEq

/-- The host built by `ConfigManager.addHost` from a spec; `now` stands
for `Date.now()` used in the fallback id. -/
def mkNewHost (spec : HostSpec) (now : Nat) : Host :=
  { id := spec.id.getD ("dynamic-" ++ toString now)
    name := spec.name
    host := spec.host
    port := spec.port.getD 8095
    type := spec.type.getD "dynamic"
    enabled := spec.enabled.getD true
    description := spec.description.getD "" }

/-- `ConfigManager.addHost(hostConfig)`: unconditionally pushes the new
host and returns it. -/
def addHost (hosts : List Host) (spec : HostSpec) (now : Nat) :
    List Host × Host :=
  (hosts ++ [mkNewHost spec now], mkNewHost spec now)

/-- `ConfigManager.removeHost(id)`: splice out the first host with the
given id, returning the new list and the removed host (or `none`). -/
def removeHostList : List Host → String → List Host × Option Host
  | [], _ => ([], none)
  | x :: xs, id =>
    if x.id = id then (xs, some x)
    else
      let r := removeHostList xs id
      (x :: r.1, r.2)

/-- A partial update body (`updates`): `Object.assign` overwrites exactly
the present fields. -/
structure HostUpdates where
  id : Option String
  name : Option String
  host : Option String
  port : Option Nat
  type : Option String
  enabled : Option Bool
  description : Option String
  deriving Repr, DecidableEq

/-- `Object.assign(host, updates)`. -/
def applyUpdates (h : Host) (u : HostUpdates) : Host :=
  { id := u.id.getD h.id
    name := u.name.getD h.name
    host := u.host.getD h.host
    port := u.port.getD h.port
    type := u.type.getD h.type
    enabled := u.enabled.getD h.enabled
    description := u.description.getD h.description }

/-- `ConfigManager.updateHost(id, updates)`: assign onto the first host
with the given id (found via `getHostById`), returning the new list and
the updated host (or `none`). -/
def updateHostList : List Host → String → HostUpdates → List Host × Option Host
  | [], _, _ => ([], none)
  | x :: xs, id, u =>
    if x.id = id then (applyUpdates x u :: xs, some (applyUpdates x u))
    else
      let r := updateHostList xs id u
      (x :: r.1, r.2)

/-- Combined registry-and-cache state affected by a host CRUD route. -/
structure RouteResult where
  hosts : List Host
  cache : Cache
  affected : Option Host
  deriving Repr

/-- `POST /api/hosts`: `config.addHost` then `healthManager.clearCache()`
(full clear). -/
def addHostRoute (hosts : List Host) (cache : Cache) (spec : HostSpec)
    (now : Nat) : RouteResult :=
  let r := addHost hosts spec now
  { hosts := r.1, cache := clearCache cache none, affected := some r.2 }

/-- `PUT /api/hosts/:id`: `config.updateHost`, and on success
`healthManager.clearCache(id)`; on a miss the state is untouched (404). -/
def updateHostRoute (hosts : List Host) (cache : Cache) (id : String)
    (u : HostUpdates) : RouteResult :=
  match (updateHostList hosts id u).2 with
  | some h =>
    { hosts := (updateHostList hosts id u).1
      cache := clearCache cache (some id), affected := some h }
  | none => { hosts := hosts, cache := cache, affected := none }

/-- `DELETE /api/hosts/:id`: `config.removeHost`, and on success
`healthManager.clearCache(id)`; on a miss the state is untouched (404). -/
def removeHostRoute (hosts : List Host) (cache : Cache) (id : String) :
    RouteResult :=
  match (removeHostList hosts id).2 with
  | some h =>
    { hosts := (removeHostList hosts id).1
      cache := clearCache cache (some id), affected := some h }
  | none => { hosts := hosts, cache := cache, affected := none }

/-- One parsed log line as produced by the readers. -/
structure LogEntry where
  line : Nat
  timestamp : Option String
  level : String
  message : String
  deriving Repr, DecidableEq

/-- One log source block inside a `ServiceLog` (`source` is `file`,
`docker` or `mock`). -/
structure LogSource where
  source : String
  path : Option String
  container : Option String
  total_lines : Nat
  logs : List LogEntry
  deriving Repr, DecidableEq

/-- The value `getServiceLogs` resolves with. -/
structure ServiceLog where
  service : String
  type : String
  timestamp : String
  sources : List LogSource
  errors : List String
  deriving Repr, DecidableEq

/-- ASCII lowercase conversion (JavaScript `toLowerCase()` on the service
names in play), written on the character list so it evaluates. -/
def toLowerStr (s : String) : String := ⟨s.data.map Char.toLower⟩

/-- ASCII uppercase conversion (JavaScript `toUpperCase()`). -/
def toUpperStr (s : String) : String := ⟨s.data.map Char.toUpper⟩

/-- `this.supportedServices` from the `LogManager` constructor. -/
def supportedServices : List String := ["etcd", "redis", "manager", "agent"]

/-- `getContainerName(service)`: the hardcoded container map (null and
absent entries both collapse to `none`). -/
def getContainerName (service : String) : Option String :=
  match toLowerStr service with
  | "etcd" => some "backendai-backendai-half-etcd-1"
  | "redis" => some "caster-redis-1"
  | _ => none

/-- `getDefaultLogPath(service, type)`. -/
def getDefaultLogPath (service : String) (ty : String) : Option String :=
  match toLowerStr service with
  | "etcd" =>
    some (if ty = "error" then "/var/log/etcd/etcd-error.log"
          else "/var/log/etcd/etcd.log")
  | "redis" =>
    some (if ty = "error" then "/var/log/redis/redis-error.log"
          else "/var/log/redis/redis-server.log")
  | "manager" => some "/var/log/backend.ai/manager.log"
  | "agent" => some "/var/log/backend.ai/agent.log"
  | _ => none

/-- Environment of the log manager: the contents of the environment
variables, the outcome of the tail/docker reads (already parsed; parsing
depends only on file contents), the random draws and clock used by the
mock generator. -/
structure LogEnv where
  envLogPath : String → String → Option String
  readFile : String → Nat → Except String (List LogEntry)
  readDocker : String → Nat → Except String (List LogEntry)
  tailLines : Option Nat
  randLevel : Nat → Nat
  isoOf : Nat → String
  nowMs : Nat
  nowIso : String

/-- `getLogPath(service, type)`: environment-variable override, else the
default path. -/
def getLogPath (env : LogEnv) (service : String) (ty : String) :
    Option String :=
  match env.envLogPath service ty with
  | some p => some p
  | none => getDefaultLogPath service ty

/-- `readLogFile(path, lines)` resolving to its source block. -/
def readLogFileRes (env : LogEnv) (path : String) (lines : Nat) :
    Except String LogSource :=
  (env.readFile path lines).map (fun logs =>
    { source := "file", path := some path, container := none
      total_lines := logs.length, logs := logs })

/-- `readDockerLogs(containerName, lines)` resolving to its source
block. -/
def readDockerLogsRes (env : LogEnv) (cn : String) (lines : Nat) :
    Except String LogSource :=
  (env.readDocker cn lines).map (fun logs =>
    { source := "docker", path := none, container := some cn
      total_lines := logs.length, logs := logs })

/-- The fixed message set of `getMockServiceLogs` for one service. -/
def mockMessages (service : String) : List String :=
  match toLowerStr service with
  | "manager" =>
    ["Manager server started on port 8080", "Database connection established",
     "Session manager initialized", "Scheduler started with 4 workers",
     "API endpoints registered", "Authentication middleware loaded",
     "Rate limiting configured", "Health check endpoint active",
     "Resource monitoring started", "Kernel registry synchronized",
     "Agent discovery service started", "Scaling policy loaded",
     "WebSocket server started", "Manager ready to accept requests",
     "Periodic tasks scheduled"]
  | "agent" =>
    ["Agent starting up...", "Registering with manager at localhost:8080",
     "GPU devices detected: 1 NVIDIA RTX 4090",
     "Container runtime initialized: Docker", "Agent registered successfully",
     "Heartbeat service started", "Resource monitor started",
     "Kernel lifecycle manager ready", "Image registry synchronized",
     "Network configuration applied", "Volume manager initialized",
     "Security policies loaded", "Agent ready to execute kernels",
     "Waiting for kernel requests...",
     "Resource usage: CPU 15%, Memory 2.3GB, GPU 0%"]
  | _ => ["Service log entry", "Another log message", "System status: OK"]

/-- One entry of the mock log loop at index `i`. -/
def mockEntry (env : LogEnv) (service : String) (lines : Nat) (i : Nat) :
    LogEntry :=
  let messages := mockMessages service
  let messageIndex := i % messages.length
  let ts := env.isoOf (env.nowMs - (lines - i) * 1000 * 60)
  let logLevels : List String := ["INFO", "DEBUG", "WARN", "ERROR"]
  let level := (logLevels.getD (env.randLevel i % 4) "INFO")
  let actualLevel :=
    if i % 10 = 0 then "ERROR" else if i % 7 = 0 then "WARN" else level
  let base := messages.getD messageIndex ""
  let message :=
    if actualLevel = "ERROR" then base ++ " - Connection timeout"
    else if actualLevel = "WARN" then base ++ " - High resource usage detected"
    else base
  { line := i + 1
    timestamp := some ts
    level := actualLevel
    message := ts ++ " [" ++ actualLevel ++ "] " ++ toUpperStr service ++ ": " ++
      message }

/-- `getMockServiceLogs(service, lines)`. -/
def getMockServiceLogs (env : LogEnv) (service : String) (lines : Nat) :
    LogSource :=
  let count := min lines ((mockMessages service).length * 3)
  let mockLogs := (List.range count).map (mockEntry env service lines)
  { source := "mock"
    path := some ("/mock/logs/" ++ service ++ ".log")
    container := none
    total_lines := mockLogs.length
    logs := mockLogs }

/-- The docker step of `getServiceLogs`: attempted only for
`source = "auto"` or `source = "docker"`; yields either one source block
or an error string. -/
def dockerStep (env : LogEnv) (service : String) (lines : Nat)
    (src : String) : List LogSource × List String :=
  if src = "auto" ∨ src = "docker" then
    match getContainerName service with
    | some cn =>
      match readDockerLogsRes env cn lines with
      | Except.ok s => ([s], [])
      | Except.error m => ([], ["Docker logs failed: " ++ m])
    | none => ([], ["No container name configured for " ++ service])
  else ([], [])

/-- The file step of `getServiceLogs`: attempted when `source = "file"`,
or when `source = "auto"` and the docker step produced nothing. -/
def fileStep (env : LogEnv) (service : String) (lines : Nat) (ty : String)
    (src : String) (dockerEmpty : Bool) : List LogSource × List String :=
  if (src = "auto" ∧ dockerEmpty) ∨ src = "file" then
    match getLogPath env service ty with
    | some p =>
      match readLogFileRes env p lines with
      | Except.ok s => ([s], [])
      | Except.error m => ([], ["File logs failed: " ++ m])
    | none => ([], ["No log path configured for " ++ service])
  else ([], [])

/-- `getServiceLogs(service, {lines, type, source})`: a thrown error is
modelled as `Except.error`. -/
def getServiceLogs (env : LogEnv) (service : String) (linesOpt : Option Nat)
    (ty : String) (src : String) : Except String ServiceLog :=
  if ¬ supportedServices.contains (toLowerStr service) then
    Except.error ("Unsupported service: " ++ service)
  else
    let lines := linesOpt.getD (env.tailLines.getD 100)
    let d := dockerStep env service lines src
    let f := fileStep env service lines ty src d.1.isEmpty
    let results := d.1 ++ f.1
    let errors := d.2 ++ f.2
    let results2 :=
      if results.isEmpty ∧ ["manager", "agent"].contains (toLowerStr service) then
        [getMockServiceLogs env service lines]
      else results
    if results2.isEmpty then
      Except.error ("No logs available for " ++ service ++ ". Errors: " ++
        String.intercalate ", " errors)
    else
      Except.ok { service := service, type := ty, timestamp := env.nowIso
                  sources := results2, errors := errors }

/-- The update the `results.forEach` loop applies to `overallStatus` for
one settled outcome. -/
def statusStep (cur : String) (p : Host × Settled) : String :=
  match p.2 with
  | Settled.fulfilled data =>
    if data.overall_status = "Unhealthy" then "Unhealthy"
    else if data.overall_status = "Degraded" ∧ cur ≠ "Unhealthy" then "Degraded"
    else cur
  | Settled.rejected _ => "Unhealthy"

/-- Sample healthy report used to instantiate the general theorems. -/
def repHealthy : HostReport :=
  { timestamp := "t0", overall_status := "Healthy", total_checks := 1
    healthy_count := 1, unhealthy_count := 0, degraded_count := 0
    unknown_count := 0
    checks := [{ service_name := "PostgreSQL", status := "Healthy"
                 response_time_ms := 5, details := "ok", timestamp := "t0"
                 error_message := none }]
    summary := "ok" }

/-- Sample enabled remote host. -/
def hostRemote : Host :=
  { id := "h2", name := "gpu-node-1", host := "10.0.0.5", port := 9999
    type := "remote", enabled := true, description := "" }

/-- Sample enabled local host. -/
def hostLocal : Host :=
  { id := "h1", name := "localhost", host := "localhost", port := 8095
    type := "local", enabled := true, description := "" }

/-- Environment in which every probe fails (unreachable endpoints, broken
local binary). -/
def envFail : ProbeEnv :=
  { localProbe := fun _ => Except.error "spawn ENOENT"
    remoteProbe := fun _ _ => Except.error "connect ECONNREFUSED 10.0.0.5:9999" }

/-- Environment in which every probe succeeds with the sample report. -/
def envOk : ProbeEnv :=
  { localProbe := fun _ => Except.ok repHealthy
    remoteProbe := fun _ _ => Except.ok repHealthy }

/-- Log environment in which neither the file reads nor the docker reads
succeed and no environment variables are set. -/
def logEnvFail : LogEnv :=
  { envLogPath := fun _ _ => none
    readFile := fun p _ => Except.error ("Log file not found: " ++ p)
    readDocker := fun c _ => Except.error ("No such container: " ++ c)
    tailLines := none
    randLevel := fun _ => 0
    isoOf := fun n => toString n
    nowMs := 0
    nowIso := "t" }

/-- The staleness condition of one cache slot: the entry under `key` is
absent, or its age has reached the TTL (the code serves it only while
`now - timestamp < cacheTimeout`). -/
def cacheStale (cache : Cache) (key : String) (now : Nat) : Prop :=
  match cacheGet cache key with
  | some e => cacheTimeout ≤ now - e.timestamp
  | none => True

/-- A host spec whose id duplicates `hostRemote`'s id. -/
def specClone : HostSpec :=
  { id := some "h2"
    name := "clone"
    host := "10.0.0.6"
    port := some 8097
    type := some "remote"
    enabled := some true
    description := none }

/-! ## Theorems -/

theorem combineStep_overallStatus (nowIso : String) (s : CombineState)
    (p : Host × Settled) :
    (combineStep nowIso s p).overallStatus = statusStep s.overallStatus p := by
  rcases p with ⟨h, st⟩
  cases st <;> rfl

theorem foldl_overallStatus (nowIso : String) :
    ∀ (pairs : List (Host × Settled)) (s : CombineState),
      (pairs.foldl (combineStep nowIso) s).overallStatus =
        pairs.foldl statusStep s.overallStatus
  | [], _ => rfl
  | p :: ps, s => by
    simp only [List.foldl_cons]
    rw [foldl_overallStatus nowIso ps, combineStep_overallStatus]

theorem statusFold_characterization :
    ∀ (pairs : List (Host × Settled)) (cur : String),
      pairs.foldl statusStep cur =
        if pairs.any outcomeUnhealthy then "Unhealthy"
        else if pairs.any outcomeDegraded then
          (if cur = "Unhealthy" then "Unhealthy" else "Degraded")
        else cur
  | [], cur => by simp
  | p :: ps, cur => by
    rcases p with ⟨h, st⟩
    rw [List.foldl_cons, statusFold_characterization ps]
    cases st with
    | rejected msg =>
      simp only [statusStep, List.any_cons, outcomeUnhealthy, Bool.true_or,
        if_true]
      split_ifs <;> simp
    | fulfilled data =>
      simp only [List.any_cons]
      by_cases hU : data.overall_status = "Unhealthy"
      · have hs : statusStep cur (h, Settled.fulfilled data) = "Unhealthy" := by
          simp [statusStep, hU]
        have ho : outcomeUnhealthy (h, Settled.fulfilled data) = true := by
          simp [outcomeUnhealthy, hU]
        simp only [hs, ho, Bool.true_or]
        split_ifs <;> try simp_all
      · have ho : outcomeUnhealthy (h, Settled.fulfilled data) = false := by
          simp [outcomeUnhealthy, hU]
        simp only [ho, Bool.false_or]
        by_cases hD : data.overall_status = "Degraded"
        · have hod : outcomeDegraded (h, Settled.fulfilled data) = true := by
            simp [outcomeDegraded, hD]
          by_cases hcur : cur = "Unhealthy"
          · have hs : statusStep cur (h, Settled.fulfilled data) = "Unhealthy" := by
              simp [statusStep, hU, hD, hcur]
            simp only [hs, hod, Bool.true_or]
            split_ifs <;> try simp_all
          · have hs : statusStep cur (h, Settled.fulfilled data) = "Degraded" := by
              simp [statusStep, hU, hD, hcur]
            simp only [hs, hod, Bool.true_or]
            split_ifs <;> try simp_all
        · have hod : outcomeDegraded (h, Settled.fulfilled data) = false := by
            simp [outcomeDegraded, hD]
          have hs : statusStep cur (h, Settled.fulfilled data) = cur := by
            simp [statusStep, hU, hD]
          simp only [hod, hs, Bool.false_or]

/-- Claim C1: for every list of per-host settled outcomes passed to
`combineHealthResults`, the overall status of the resulting report is
`Unhealthy` if any host's outcome is Unhealthy (rejected hosts included),
otherwise `Degraded` if any host's outcome is Degraded, otherwise
`Healthy` — exactly this precedence. -/
theorem combineHealthResults_overall_status (pairs : List (Host × Settled))
    (nowIso : String) :
    (combineHealthResults pairs nowIso).overall_status =
      specOverallStatus pairs := by
  show (pairs.foldl (combineStep nowIso) combineInit).overallStatus =
    specOverallStatus pairs
  rw [foldl_overallStatus, statusFold_characterization]
  unfold specOverallStatus combineInit
  split
  · rfl
  · split
    · simp
    · rfl

theorem combineStep_combinedChecks (nowIso : String) (s : CombineState)
    (p : Host × Settled) :
    (combineStep nowIso s p).combinedChecks =
      s.combinedChecks ++ hostEntries nowIso p := by
  rcases p with ⟨h, st⟩
  cases st <;> rfl

theorem foldl_combinedChecks (nowIso : String) :
    ∀ (pairs : List (Host × Settled)) (s : CombineState),
      (pairs.foldl (combineStep nowIso) s).combinedChecks =
        s.combinedChecks ++ pairs.flatMap (hostEntries nowIso)
  | [], s => by simp
  | p :: ps, s => by
    rw [List.foldl_cons, foldl_combinedChecks nowIso ps,
      combineStep_combinedChecks]
    simp

/-- Claim C2: the combined report contains exactly one entry per settled
probe result across the host list — the flattening, in order, of each
host's entries, with none dropped and none duplicated — and every tagged
entry carries the originating host's id, name and type, its service name
prefixed with the host's display name.  The same holds for the report
produced by `getAllHealthChecks` over the enabled hosts. -/
theorem aggregated_checks_exactly_tagged :
    (∀ (pairs : List (Host × Settled)) (nowIso : String),
      (combineHealthResults pairs nowIso).checks =
        pairs.flatMap (hostEntries nowIso))
    ∧ (∀ (env : ProbeEnv) (hosts : List Host) (cache : Cache) (now : Nat)
        (nowIso : String),
        (getAllHealthChecks env hosts cache now nowIso).report.checks =
          ((runHosts env cache now nowIso "/api/health/all"
            (hosts.filter (fun h => h.enabled))).1).flatMap
              (hostEntries nowIso))
    ∧ (∀ (h : Host) (c : Check),
        (tagCheck h c).host_id = h.id ∧ (tagCheck h c).host_name = h.name ∧
        (tagCheck h c).host_type = h.type ∧
        (tagCheck h c).service_name = h.name ++ ": " ++ c.service_name) := by
  have key : ∀ (pairs : List (Host × Settled)) (nowIso : String),
      (combineHealthResults pairs nowIso).checks =
        pairs.flatMap (hostEntries nowIso) := by
    intro pairs nowIso
    show (pairs.foldl (combineStep nowIso) combineInit).combinedChecks = _
    rw [foldl_combinedChecks]
    rfl
  exact ⟨key, fun env hosts cache now nowIso => key _ _,
    fun h c => ⟨rfl, rfl, rfl, rfl⟩⟩

theorem find?_map_overwrite (k : String) (v : CacheEntry) :
    ∀ (c : Cache), c.any (fun p => p.1 = k) = true →
      (c.map (fun p => if p.1 = k then (k, v) else p)).find?
        (fun p => p.1 = k) = some (k, v)
  | [], h => by simp at h
  | p :: rest, h => by
    by_cases hp : p.1 = k
    · simp [hp]
    · have hrest : rest.any (fun p => p.1 = k) = true := by
        simp [List.any_cons, hp] at h
        simpa using h
      simp only [List.map_cons, if_neg hp]
      rw [List.find?_cons_of_neg _ (by simpa using hp)]
      exact find?_map_overwrite k v rest hrest

theorem find?_append_fresh (k : String) (v : CacheEntry) :
    ∀ (c : Cache), c.any (fun p => p.1 = k) = false →
      (c ++ [(k, v)]).find? (fun p => p.1 = k) = some (k, v)
  | [], _ => by simp
  | p :: rest, h => by
    have hp : ¬ p.1 = k := by
      intro hk
      simp [List.any_cons, hk] at h
    have hrest : rest.any (fun p => p.1 = k) = false := by
      simp [List.any_cons] at h
      simpa using h.2
    rw [List.cons_append, List.find?_cons_of_neg _ (by simpa using hp)]
    exact find?_append_fresh k v rest hrest

theorem cacheGet_cacheSet_self (c : Cache) (k : String) (v : CacheEntry) :
    cacheGet (cacheSet c k v) k = some v := by
  unfold cacheGet cacheSet
  cases hb : c.any (fun p => p.1 = k) with
  | true => rw [if_pos rfl, find?_map_overwrite k v c hb]; rfl
  | false =>
    rw [if_neg Bool.false_ne_true, find?_append_fresh k v c hb]; rfl

/-- Claim C3: a cache entry whose age has reached the TTL (30 s), or an
absent entry, is never served: the remote probe is issued, and when the
probe succeeds its report is both returned and stored in the cache under
the host's key with the current time. -/
theorem stale_cache_never_served (host : Host) (endpoint : String)
    (cache : Cache) (now : Nat) (nowIso : String)
    (probe : Except String HostReport)
    (hstale : cacheStale cache (host.id ++ "-" ++ endpoint) now) :
    (executeRemoteHealthCheck host endpoint cache now nowIso
        probe).probeCalled = true
    ∧ ∀ d, probe = Except.ok d →
        (executeRemoteHealthCheck host endpoint cache now nowIso
            probe).data = d
        ∧ cacheGet (executeRemoteHealthCheck host endpoint cache now nowIso
            probe).cache (host.id ++ "-" ++ endpoint) =
          some { data := d, timestamp := now } := by
  unfold executeRemoteHealthCheck
  unfold cacheStale at hstale
  cases hc : cacheGet cache (host.id ++ "-" ++ endpoint) with
  | none =>
    simp only [hc]
    cases probe with
    | ok d =>
      refine ⟨rfl, fun d2 hd2 => ?_⟩
      cases hd2
      exact ⟨rfl, cacheGet_cacheSet_self _ _ _⟩
    | error m =>
      exact ⟨rfl, fun d2 hd2 => by cases hd2⟩
  | some e =>
    rw [hc] at hstale
    have hnot : ¬ (now - e.timestamp < cacheTimeout) := by omega
    simp only [hc, if_neg hnot]
    cases probe with
    | ok d =>
      refine ⟨rfl, fun d2 hd2 => ?_⟩
      cases hd2
      exact ⟨rfl, cacheGet_cacheSet_self _ _ _⟩
    | error m =>
      exact ⟨rfl, fun d2 hd2 => by cases hd2⟩

theorem stale_cache_never_served_witness :
    cacheStale [("h2-/api/health/all", { data := repHealthy, timestamp := 0 })]
      (hostRemote.id ++ "-" ++ "/api/health/all") 30000
    ∧ (executeRemoteHealthCheck hostRemote "/api/health/all"
        [("h2-/api/health/all", { data := repHealthy, timestamp := 0 })]
        30000 "t1" (Except.ok repHealthy)).probeCalled = true
    ∧ (executeRemoteHealthCheck hostRemote "/api/health/all"
        [("h2-/api/health/all", { data := repHealthy, timestamp := 0 })]
        30000 "t1" (Except.ok repHealthy)).data = repHealthy
    ∧ cacheGet (executeRemoteHealthCheck hostRemote "/api/health/all"
        [("h2-/api/health/all", { data := repHealthy, timestamp := 0 })]
        30000 "t1" (Except.ok repHealthy)).cache
        (hostRemote.id ++ "-" ++ "/api/health/all") =
      some { data := repHealthy, timestamp := 30000 } :=
  have hst : cacheStale
      [("h2-/api/health/all", { data := repHealthy, timestamp := 0 })]
      (hostRemote.id ++ "-" ++ "/api/health/all") 30000 := by
    show cacheTimeout ≤ 30000 - 0
    decide
  have h := stale_cache_never_served hostRemote "/api/health/all"
    [("h2-/api/health/all", { data := repHealthy, timestamp := 0 })]
    30000 "t1" (Except.ok repHealthy) hst
  ⟨hst, h.1, (h.2 repHealthy rfl).1, (h.2 repHealthy rfl).2⟩

/-- Claim C4: when the probe of a remote host fails (network error,
timeout or non-2xx — all surfaced as the error case), and the cache holds
no fresh entry, `executeRemoteHealthCheck` returns (rather than throws) a
synthesized report with exactly one Unhealthy check named
"{host name} Connection" carrying the failure detail and error message;
the failed outcome is not cached. -/
theorem remote_failure_synthesized (host : Host) (endpoint : String)
    (cache : Cache) (now : Nat) (nowIso : String) (errMsg : String)
    (hstale : cacheStale cache (host.id ++ "-" ++ endpoint) now) :
    (executeRemoteHealthCheck host endpoint cache now nowIso
        (Except.error errMsg)).data =
      failureReport host nowIso errMsg
    ∧ (failureReport host nowIso errMsg).overall_status = "Unhealthy"
    ∧ (failureReport host nowIso errMsg).total_checks = 1
    ∧ (failureReport host nowIso errMsg).unhealthy_count = 1
    ∧ (failureReport host nowIso errMsg).checks =
      [{ service_name := host.name ++ " Connection", status := "Unhealthy"
         response_time_ms := 0
         details := "Failed to connect to " ++ host.host ++ ":" ++
           toString host.port ++ " - " ++ errMsg
         timestamp := nowIso, error_message := some errMsg }]
    ∧ (executeRemoteHealthCheck host endpoint cache now nowIso
        (Except.error errMsg)).cache = cache := by
  unfold executeRemoteHealthCheck
  unfold cacheStale at hstale
  cases hc : cacheGet cache (host.id ++ "-" ++ endpoint) with
  | none =>
    simp only [hc]
    exact ⟨rfl, rfl, rfl, rfl, rfl, rfl⟩
  | some e =>
    rw [hc] at hstale
    have hnot : ¬ (now - e.timestamp < cacheTimeout) := by omega
    simp only [hc, if_neg hnot]
    exact ⟨rfl, rfl, rfl, rfl, rfl, rfl⟩

theorem remote_failure_synthesized_witness :
    cacheStale [] (hostRemote.id ++ "-" ++ "/api/health/all") 0
    ∧ (executeRemoteHealthCheck hostRemote "/api/health/all" [] 0 "t0"
        (Except.error "connect ECONNREFUSED")).data =
      failureReport hostRemote "t0" "connect ECONNREFUSED"
    ∧ (failureReport hostRemote "t0" "connect ECONNREFUSED").checks =
      [{ service_name := "gpu-node-1 Connection", status := "Unhealthy"
         response_time_ms := 0
         details := "Failed to connect to 10.0.0.5:9999 - connect ECONNREFUSED"
         timestamp := "t0", error_message := some "connect ECONNREFUSED" }] :=
  have hst : cacheStale [] (hostRemote.id ++ "-" ++ "/api/health/all") 0 :=
    trivial
  have h := remote_failure_synthesized hostRemote "/api/health/all" [] 0 "t0"
    "connect ECONNREFUSED" hst
  ⟨hst, h.1, by rw [h.2.2.2.2.1]; rfl⟩

theorem isPrefixOf_self_append :
    ∀ (l t : List Char), l.isPrefixOf (l ++ t) = true
  | [], _ => by simp [List.isPrefixOf]
  | a :: l2, t => by
    simp only [List.cons_append, List.isPrefixOf, beq_self_eq_true,
      Bool.true_and]
    exact isPrefixOf_self_append l2 t

theorem cacheGet_clearCache (id key : String) :
    ∀ (c : Cache), cacheGet (clearCache c (some id)) key =
      if keyHasHostId id key then none else cacheGet c key
  | [] => by cases h : keyHasHostId id key <;> simp [clearCache, cacheGet, h]
  | p :: rest => by
    have IH := cacheGet_clearCache id key rest
    cases hkp : keyHasHostId id p.1 with
    | true =>
      have hfil : clearCache (p :: rest) (some id) =
          clearCache rest (some id) := by
        simp [clearCache, hkp]
      rw [hfil, IH]
      by_cases hpk : p.1 = key
      · rw [if_pos (hpk ▸ hkp), if_pos (hpk ▸ hkp)]
      · have hg : cacheGet (p :: rest) key = cacheGet rest key := by
          unfold cacheGet
          rw [List.find?_cons_of_neg _ (by simpa using hpk)]
        rw [hg]
    | false =>
      have hfil : clearCache (p :: rest) (some id) =
          p :: clearCache rest (some id) := by
        simp [clearCache, hkp]
      rw [hfil]
      by_cases hpk : p.1 = key
      · have hkk : keyHasHostId id key = false := hpk ▸ hkp
        rw [if_neg (by simp [hkk])]
        unfold cacheGet
        rw [List.find?_cons_of_pos _ (by simpa using hpk),
          List.find?_cons_of_pos _ (by simpa using hpk)]
      · have hg1 : cacheGet (p :: clearCache rest (some id)) key =
            cacheGet (clearCache rest (some id)) key := by
          unfold cacheGet
          rw [List.find?_cons_of_neg _ (by simpa using hpk)]
        have hg2 : cacheGet (p :: rest) key = cacheGet rest key := by
          unfold cacheGet
          rw [List.find?_cons_of_neg _ (by simpa using hpk)]
        rw [hg1, hg2, IH]

/-- Claim C10: `clearCache(hostId)` deletes exactly the entries whose key
starts with the host id followed by "-" (hence also entries of any other
host whose key happens to share that prefix), leaves every other entry
unchanged, and `clearCache()` with no argument empties the cache; every
key the manager writes for a host has that prefix. -/
theorem clearCache_scoped_exactly (c : Cache) (id key : String) :
    (cacheGet (clearCache c (some id)) key =
      if keyHasHostId id key then none else cacheGet c key)
    ∧ clearCache c none = []
    ∧ keyHasHostId id (id ++ "-" ++ key) = true := by
  refine ⟨cacheGet_clearCache id key c, rfl, ?_⟩
  unfold keyHasHostId
  rw [String.data_append]
  exact isPrefixOf_self_append _ _

theorem updateHostList_found (u : HostUpdates) :
    ∀ (hosts : List Host) (id : String), (∃ h ∈ hosts, h.id = id) →
      ∃ h2, (updateHostList hosts id u).2 = some h2
  | [], id, hex => by
    rcases hex with ⟨h, hm, _⟩
    cases hm
  | x :: xs, id, hex => by
    by_cases hx : x.id = id
    · exact ⟨applyUpdates x u, by simp [updateHostList, hx]⟩
    · rcases hex with ⟨h, hm, hid⟩
      rcases List.mem_cons.mp hm with rfl | hm2
      · exact absurd hid hx
      · obtain ⟨h2, hh2⟩ := updateHostList_found u xs id ⟨h, hm2, hid⟩
        exact ⟨h2, by simp [updateHostList, hx, hh2]⟩

theorem removeHostList_found :
    ∀ (hosts : List Host) (id : String), (∃ h ∈ hosts, h.id = id) →
      ∃ h2, (removeHostList hosts id).2 = some h2
  | [], id, hex => by
    rcases hex with ⟨h, hm, _⟩
    cases hm
  | x :: xs, id, hex => by
    by_cases hx : x.id = id
    · exact ⟨x, by simp [removeHostList, hx]⟩
    · rcases hex with ⟨h, hm, hid⟩
      rcases List.mem_cons.mp hm with rfl | hm2
      · exact absurd hid hx
      · obtain ⟨h2, hh2⟩ := removeHostList_found xs id ⟨h, hm2, hid⟩
        exact ⟨h2, by simp [removeHostList, hx, hh2]⟩

/-- Claim C7: when a host with the given id is present in the registry,
each mutation route (add, update, remove) leaves no cache entry scoped to
that host id (add clears everything, update and remove clear the id's
prefix), so a subsequent remote read for any host carrying that id misses
the cache and issues a fresh probe. -/
theorem mutation_invalidates_host_cache (hosts : List Host) (cache : Cache)
    (id : String) (u : HostUpdates) (spec : HostSpec) (now : Nat)
    (key : String) (hkey : keyHasHostId id key = true)
    (hid : ∃ h ∈ hosts, h.id = id) :
    cacheGet (addHostRoute hosts cache spec now).cache key = none
    ∧ cacheGet (updateHostRoute hosts cache id u).cache key = none
    ∧ cacheGet (removeHostRoute hosts cache id).cache key = none
    ∧ ∀ (h2 : Host) (endpoint : String) (now2 : Nat) (iso2 : String)
        (probe : Except String HostReport), h2.id = id →
        (executeRemoteHealthCheck h2 endpoint
          (updateHostRoute hosts cache id u).cache now2 iso2
          probe).probeCalled = true := by
  obtain ⟨hu2, hueq⟩ := updateHostList_found u hosts id hid
  have hupc : (updateHostRoute hosts cache id u).cache =
      clearCache cache (some id) := by
    unfold updateHostRoute
    rw [hueq]
  obtain ⟨hr2, hreq⟩ := removeHostList_found hosts id hid
  have hrmc : (removeHostRoute hosts cache id).cache =
      clearCache cache (some id) := by
    unfold removeHostRoute
    rw [hreq]
  refine ⟨rfl, ?_, ?_, ?_⟩
  · rw [hupc, cacheGet_clearCache, if_pos hkey]
  · rw [hrmc, cacheGet_clearCache, if_pos hkey]
  · intro h2 endpoint now2 iso2 probe hh2
    have hkey2 : keyHasHostId id (h2.id ++ "-" ++ endpoint) = true := by
      rw [hh2]
      unfold keyHasHostId
      rw [String.data_append]
      exact isPrefixOf_self_append _ _
    have hnone : cacheGet (updateHostRoute hosts cache id u).cache
        (h2.id ++ "-" ++ endpoint) = none := by
      rw [hupc, cacheGet_clearCache, if_pos hkey2]
    unfold executeRemoteHealthCheck
    simp only [hnone]
    cases probe <;> rfl

theorem mutation_invalidates_host_cache_witness :
    keyHasHostId "h2" "h2-/api/health/all" = true
    ∧ (∃ h ∈ [hostRemote], h.id = "h2")
    ∧ cacheGet (updateHostRoute [hostRemote]
        [("h2-/api/health/all", { data := repHealthy, timestamp := 0 })] "h2"
        { id := none, name := some "renamed", host := none, port := none
          type := none, enabled := none, description := none }).cache
        "h2-/api/health/all" = none :=
  have hk : keyHasHostId "h2" "h2-/api/health/all" = true := rfl
  have hex : ∃ h ∈ [hostRemote], h.id = "h2" := ⟨hostRemote, by simp, rfl⟩
  have h := mutation_invalidates_host_cache [hostRemote]
    [("h2-/api/health/all", { data := repHealthy, timestamp := 0 })] "h2"
    { id := none, name := some "renamed", host := none, port := none
      type := none, enabled := none, description := none }
    { id := some "h9", name := "n", host := "10.0.0.9", port := none
      type := none, enabled := none, description := none } 0
    "h2-/api/health/all" hk hex
  ⟨hk, hex, h.2.1⟩

theorem runHosts_mem (env : ProbeEnv) (now : Nat) (nowIso ep : String) :
    ∀ (hs : List Host) (cache : Cache) (q : Host × Settled),
      q ∈ (runHosts env cache now nowIso ep hs).1 →
      q.1 ∈ hs ∧ (¬(q.1.type = "local" ∨ q.1.host = "localhost") →
        ∃ d, q.2 = Settled.fulfilled d)
  | [], cache, q, hq => by simp [runHosts] at hq
  | h :: hs2, cache, q, hq => by
    simp only [runHosts] at hq
    rcases List.mem_cons.mp hq with rfl | hq2
    · refine ⟨List.mem_cons_self _ _, fun hrem => ?_⟩
      exact ⟨(executeRemoteHealthCheck h ep cache now nowIso
          (env.remoteProbe h ep)).data, by
        show (runHost env cache now nowIso ep h).1 = _
        unfold runHost
        rw [if_neg hrem]⟩
    · have IH := runHosts_mem env now nowIso ep hs2
        ((runHost env cache now nowIso ep h).2.1) q hq2
      exact ⟨List.mem_cons_of_mem _ IH.1, IH.2⟩

/-- Claim C5 (amended): a host's summary entry is `online` unless the
settled outcome recorded under its id was a rejected promise; the remote
path never rejects (an unreachable endpoint yields a fulfilled synthetic
report), so every host whose id belongs only to remote hosts is marked
`online` — including an unreachable one. -/
theorem remote_hosts_marked_online (env : ProbeEnv) (hosts : List Host)
    (cache : Cache) (now : Nat) (nowIso : String) (hid : String)
    (hrem : ∀ h ∈ hosts, h.enabled = true → h.id = hid →
      ¬(h.type = "local" ∨ h.host = "localhost")) :
    ∀ e ∈ (getAllHealthChecks env hosts cache now nowIso).report.hosts,
      e.id = hid → e.status = "online" := by
  intro e he heid
  have hhosts : (getAllHealthChecks env hosts cache now nowIso).report.hosts
      = ((runHosts env cache now nowIso "/api/health/all"
          (hosts.filter (fun h => h.enabled))).1).map
        (fun p => hostSummaryEntry
          ((runHosts env cache now nowIso "/api/health/all"
            (hosts.filter (fun h => h.enabled))).1) p.1) := rfl
  rw [hhosts] at he
  obtain ⟨p, hpmem, hpe⟩ := List.mem_map.mp he
  have hp1id : p.1.id = hid := by
    rw [← hpe] at heid
    exact heid
  have hfind : ∃ q, ((runHosts env cache now nowIso "/api/health/all"
      (hosts.filter (fun h => h.enabled))).1).find?
        (fun r => r.1.id = p.1.id) = some q := by
    cases hfq : ((runHosts env cache now nowIso "/api/health/all"
        (hosts.filter (fun h => h.enabled))).1).find?
          (fun r => r.1.id = p.1.id) with
    | some q => exact ⟨q, rfl⟩
    | none =>
      have := List.find?_eq_none.mp hfq p hpmem
      simp at this
  obtain ⟨q, hq⟩ := hfind
  have hqmem : q ∈ (runHosts env cache now nowIso "/api/health/all"
      (hosts.filter (fun h => h.enabled))).1 :=
    List.mem_of_find?_eq_some hq
  have hqpred : q.1.id = p.1.id := by
    have := List.find?_some hq
    simpa using this
  have hqprop := runHosts_mem env now nowIso "/api/health/all"
    (hosts.filter (fun h => h.enabled)) cache q hqmem
  have hq1hosts : q.1 ∈ hosts := (List.mem_filter.mp hqprop.1).1
  have hq1en : q.1.enabled = true := by
    simpa using (List.mem_filter.mp hqprop.1).2
  have hqrem : ¬(q.1.type = "local" ∨ q.1.host = "localhost") :=
    hrem q.1 hq1hosts hq1en (by rw [hqpred, hp1id])
  obtain ⟨d, hd⟩ := hqprop.2 hqrem
  rw [← hpe]
  show (hostSummaryEntry _ p.1).status = "online"
  unfold hostSummaryEntry findResultFor
  simp [hq, hd]

theorem remote_hosts_marked_online_witness :
    (∀ h ∈ [hostRemote], h.enabled = true → h.id = "h2" →
      ¬(h.type = "local" ∨ h.host = "localhost"))
    ∧ ∀ e ∈ (getAllHealthChecks envFail [hostRemote] [] 0 "t").report.hosts,
        e.id = "h2" → e.status = "online" :=
  ⟨by decide, remote_hosts_marked_online envFail [hostRemote] [] 0 "t" "h2"
    (by decide)⟩

/-- Claim C5 (counterexample): a single enabled remote host whose endpoint
is unreachable: the cycle records the synthetic Unhealthy connection entry
and overall status Unhealthy, yet the host summary marks the host
`online`, not `offline` as the claim states — the catch branch resolves
the promise, so the rejected-path test `status === "fulfilled"` passes. -/
theorem unreachable_remote_marked_online :
    ((getAllHealthChecks envFail [hostRemote] [] 0 "t").report.hosts.map
      (fun e => e.status)) = ["online"]
    ∧ ((getAllHealthChecks envFail [hostRemote] [] 0 "t").report.checks.map
      (fun c => c.status)) = ["Unhealthy"]
    ∧ (getAllHealthChecks envFail [hostRemote] [] 0 "t").report.overall_status
      = "Unhealthy" :=
  ⟨rfl, rfl, rfl⟩

/-- Claim C6 (amended): the remote path checks the cache first and probes
only on a miss — a fresh entry is served with no probe call — and two
aggregation cycles within the TTL against an unchanged single remote host
reuse the cached payload, issuing no second probe (the second cycle's
outcome is independent of its probe environment).  The local path has no
cache at all (see the counterexample). -/
theorem remote_cache_reuse :
    (∀ (host : Host) (endpoint : String) (cache : Cache) (now : Nat)
       (nowIso : String) (probe : Except String HostReport) (e : CacheEntry),
       cacheGet cache (host.id ++ "-" ++ endpoint) = some e →
       now - e.timestamp < cacheTimeout →
       (executeRemoteHealthCheck host endpoint cache now nowIso
           probe).probeCalled = false
       ∧ (executeRemoteHealthCheck host endpoint cache now nowIso
           probe).data = e.data)
    ∧ (∀ (env1 env2 : ProbeEnv) (h : Host) (d : HostReport) (now1 now2 : Nat)
        (iso1 iso2 : String),
        h.enabled = true →
        ¬(h.type = "local" ∨ h.host = "localhost") →
        env1.remoteProbe h "/api/health/all" = Except.ok d →
        now2 - now1 < cacheTimeout →
        (getAllHealthChecks env2 [h]
            (getAllHealthChecks env1 [h] [] now1 iso1).cache now2
            iso2).probeFlags = [(h.id, false)]
        ∧ (getAllHealthChecks env2 [h]
            (getAllHealthChecks env1 [h] [] now1 iso1).cache now2
            iso2).report.checks = d.checks.map (tagCheck h)) := by
  constructor
  · intro host endpoint cache now nowIso probe e hget hfresh
    unfold executeRemoteHealthCheck
    simp only [hget]
    rw [if_pos hfresh]
    exact ⟨rfl, rfl⟩
  · intro env1 env2 h d now1 now2 iso1 iso2 hen hrem hprobe hfresh
    have hfl : List.filter (fun x => x.enabled) [h] = [h] := by simp [hen]
    have hrh1 : runHost env1 [] now1 iso1 "/api/health/all" h =
        (Settled.fulfilled d,
          [(h.id ++ "-" ++ "/api/health/all", { data := d, timestamp := now1 })],
          true) := by
      unfold runHost
      rw [if_neg hrem]
      unfold executeRemoteHealthCheck
      simp only [show cacheGet [] (h.id ++ "-" ++ "/api/health/all") = none
        from rfl]
      unfold probeAndCache
      rw [hprobe]
      unfold cacheSet
      simp
    have hagg1 : (getAllHealthChecks env1 [h] [] now1 iso1).cache =
        [(h.id ++ "-" ++ "/api/health/all", { data := d, timestamp := now1 })] := by
      unfold getAllHealthChecks
      rw [hfl]
      simp only [runHosts, hrh1]
    have hget2 : cacheGet
        [(h.id ++ "-" ++ "/api/health/all", { data := d, timestamp := now1 })]
        (h.id ++ "-" ++ "/api/health/all") =
        some { data := d, timestamp := now1 } := by
      unfold cacheGet
      rw [List.find?_cons_of_pos _ (by simp)]
      rfl
    have hrh2 : runHost env2
        [(h.id ++ "-" ++ "/api/health/all", { data := d, timestamp := now1 })]
        now2 iso2 "/api/health/all" h =
        (Settled.fulfilled d,
          [(h.id ++ "-" ++ "/api/health/all", { data := d, timestamp := now1 })],
          false) := by
      unfold runHost
      rw [if_neg hrem]
      unfold executeRemoteHealthCheck
      simp only [hget2]
      rw [if_pos hfresh]
    rw [hagg1]
    constructor
    · show (getAllHealthChecks env2 [h] _ now2 iso2).probeFlags = _
      unfold getAllHealthChecks
      rw [hfl]
      simp only [runHosts, hrh2]
    · show (getAllHealthChecks env2 [h] _ now2 iso2).report.checks = _
      unfold getAllHealthChecks
      rw [hfl]
      simp only [runHosts, hrh2]
      rfl

theorem remote_cache_reuse_witness :
    hostRemote.enabled = true
    ∧ ¬(hostRemote.type = "local" ∨ hostRemote.host = "localhost")
    ∧ envOk.remoteProbe hostRemote "/api/health/all" = Except.ok repHealthy
    ∧ 1000 - 0 < cacheTimeout
    ∧ ((getAllHealthChecks envFail [hostRemote]
        (getAllHealthChecks envOk [hostRemote] [] 0 "t0").cache 1000
        "t1").probeFlags = [(hostRemote.id, false)]
      ∧ (getAllHealthChecks envFail [hostRemote]
        (getAllHealthChecks envOk [hostRemote] [] 0 "t0").cache 1000
        "t1").report.checks = repHealthy.checks.map (tagCheck hostRemote)) :=
  ⟨rfl, by decide, rfl, by decide,
    remote_cache_reuse.2 envOk envFail hostRemote repHealthy 0 1000 "t0" "t1"
      rfl (by decide) rfl (by decide)⟩

/-- Claim C6 (counterexample): for a local host the aggregation never
consults the Result Cache: the first cycle leaves the cache empty and a
second cycle 1 s later (well within the 30 s TTL) invokes the local probe
executor again, contradicting the claim for local hosts. -/
theorem local_host_probed_every_cycle :
    (getAllHealthChecks envOk [hostLocal]
        (getAllHealthChecks envOk [hostLocal] [] 0 "t0").cache 1000
        "t1").probeFlags = [("h1", true)]
    ∧ (getAllHealthChecks envOk [hostLocal] [] 0 "t0").cache = [] :=
  ⟨rfl, rfl⟩

/-- Claim C8 (amended): `addHost` never rejects: it always appends the
host built from the spec and returns it, keeping every existing host —
even when the new id duplicates an existing host's id, in which case the
registry afterwards holds that id at least twice.  Id uniqueness is not
enforced. -/
theorem addHost_appends_even_duplicate_id (hosts : List Host)
    (spec : HostSpec) (now : Nat)
    (hdup : (mkNewHost spec now).id ∈ hosts.map Host.id) :
    2 ≤ ((addHost hosts spec now).1.map Host.id).count (mkNewHost spec now).id
    ∧ (addHost hosts spec now).1.length = hosts.length + 1
    ∧ ∀ h ∈ hosts, h ∈ (addHost hosts spec now).1 := by
  refine ⟨?_, by simp [addHost], fun h hm => by simp [addHost, hm]⟩
  have hmap : (addHost hosts spec now).1.map Host.id =
      hosts.map Host.id ++ [(mkNewHost spec now).id] := by
    simp [addHost]
  rw [hmap, List.count_append]
  have h1 : 0 < (hosts.map Host.id).count (mkNewHost spec now).id :=
    List.count_pos_iff.mpr hdup
  have h2 : ([(mkNewHost spec now).id].count (mkNewHost spec now).id) = 1 := by
    simp
  omega

theorem addHost_appends_even_duplicate_id_witness :
    (mkNewHost specClone 0).id ∈ [hostRemote].map Host.id
    ∧ 2 ≤ (((addHost [hostRemote] specClone 0).1).map Host.id).count
        (mkNewHost specClone 0).id :=
  have hd : (mkNewHost specClone 0).id ∈ [hostRemote].map Host.id := by decide
  ⟨hd, (addHost_appends_even_duplicate_id [hostRemote] specClone 0 hd).1⟩

/-- Claim C8 (counterexample): adding a spec whose id "h2" already exists
in the registry is not rejected: the registry afterwards holds two hosts
with id "h2" and is not left unchanged. -/
theorem addHost_duplicate_id_accepted :
    ((addHost [hostRemote] specClone 0).1.map Host.id = ["h2", "h2"])
    ∧ (addHost [hostRemote] specClone 0).1 ≠ [hostRemote] :=
  ⟨rfl, by decide⟩

/-- Claim C9 (counterexample): `getLogs("manager", {source:"file"})` with
the file unavailable does not fail: the mock fallback fires even for an
explicit single-source request, returning a synthetic `mock` source after
the file attempt's error was recorded. -/
theorem file_source_falls_back_to_mock :
    (getServiceLogs logEnvFail "manager" none "main" "file").map
      (fun r => r.sources.map (fun s2 => s2.source)) = Except.ok ["mock"]
    ∧ (getServiceLogs logEnvFail "manager" none "main" "file").map
      (fun r => r.errors) =
      Except.ok
        ["File logs failed: Log file not found: /var/log/backend.ai/manager.log"] :=
  ⟨rfl, rfl⟩

/-- Claim C9 (amended): an explicit `source="file"` request reads only the
file path — its outcome is independent of the docker reader — and an
explicit `source="docker"` request reads only the container — independent
of the file reader and of path overrides.  When the selected source is
unavailable the call fails immediately for etcd (and redis), but for
manager and agent the synthetic mock source is substituted instead of the
failure the claim requires. -/
theorem explicit_source_no_cross_fallback :
    (∀ (el : String → String → Option String)
       (rf rd1 rd2 : String → Nat → Except String (List LogEntry))
       (tl : Option Nat) (rl : Nat → Nat) (iso : Nat → String) (nms : Nat)
       (niso service : String) (lnOpt : Option Nat) (ty : String),
       getServiceLogs ⟨el, rf, rd1, tl, rl, iso, nms, niso⟩ service lnOpt ty
         "file" =
       getServiceLogs ⟨el, rf, rd2, tl, rl, iso, nms, niso⟩ service lnOpt ty
         "file")
    ∧ (∀ (el1 el2 : String → String → Option String)
       (rf1 rf2 rd : String → Nat → Except String (List LogEntry))
       (tl : Option Nat) (rl : Nat → Nat) (iso : Nat → String) (nms : Nat)
       (niso service : String) (lnOpt : Option Nat) (ty : String),
       getServiceLogs ⟨el1, rf1, rd, tl, rl, iso, nms, niso⟩ service lnOpt ty
         "docker" =
       getServiceLogs ⟨el2, rf2, rd, tl, rl, iso, nms, niso⟩ service lnOpt ty
         "docker")
    ∧ (∀ (env : LogEnv) (lnOpt : Option Nat) (ty : String),
       (∀ p n, ∃ m, env.readFile p n = Except.error m) →
       ∃ msg, getServiceLogs env "etcd" lnOpt ty "file" = Except.error msg)
    ∧ (∀ (env : LogEnv) (lnOpt : Option Nat) (ty : String),
       (∀ p n, ∃ m, env.readFile p n = Except.error m) →
       ∃ r, getServiceLogs env "manager" lnOpt ty "file" = Except.ok r
         ∧ r.sources.map (fun s2 => s2.source) = ["mock"]) := by
  have hdock : ∀ (env : LogEnv) (service : String) (lines : Nat),
      dockerStep env service lines "file" = ([], []) := by
    intro env service lines
    unfold dockerStep
    rw [if_neg (by simp)]
  have hfileStepFail : ∀ (env : LogEnv) (service : String) (lines : Nat)
      (ty : String) (p : String) (m : String),
      getLogPath env service ty = some p →
      env.readFile p lines = Except.error m →
      fileStep env service lines ty "file" true =
        ([], ["File logs failed: " ++ m]) := by
    intro env service lines ty p m hp hm
    unfold fileStep
    rw [if_pos (Or.inr rfl)]
    simp only [hp]
    unfold readLogFileRes
    simp only [hm]
    rfl
  refine ⟨?_, ?_, ?_, ?_⟩
  · intro el rf rd1 rd2 tl rl iso nms niso service lnOpt ty
    unfold getServiceLogs
    simp only [hdock]
    rfl
  · intro el1 el2 rf1 rf2 rd tl rl iso nms niso service lnOpt ty
    have hfs : ∀ (env : LogEnv) (service : String) (lines : Nat)
        (ty : String) (b : Bool),
        fileStep env service lines ty "docker" b = ([], []) := by
      intro env service lines ty b
      unfold fileStep
      rw [if_neg (by simp)]
    unfold getServiceLogs
    simp only [hfs]
    rfl
  · intro env lnOpt ty hrf
    have hpath : ∃ p, getLogPath env "etcd" ty = some p := by
      unfold getLogPath
      cases env.envLogPath "etcd" ty with
      | some p => exact ⟨p, rfl⟩
      | none => exact ⟨_, rfl⟩
    obtain ⟨p, hp⟩ := hpath
    obtain ⟨m, hm⟩ := hrf p (lnOpt.getD (env.tailLines.getD 100))
    unfold getServiceLogs
    rw [if_neg (by decide)]
    simp only [hdock, List.isEmpty_nil, List.nil_append,
      hfileStepFail env "etcd" (lnOpt.getD (env.tailLines.getD 100)) ty p m
        hp hm]
    exact ⟨_, rfl⟩
  · intro env lnOpt ty hrf
    have hp : getLogPath env "manager" ty =
        some (match env.envLogPath "manager" ty with
          | some p => p
          | none => "/var/log/backend.ai/manager.log") := by
      unfold getLogPath
      cases env.envLogPath "manager" ty with
      | some p => rfl
      | none => rfl
    obtain ⟨m, hm⟩ := hrf (match env.envLogPath "manager" ty with
      | some p => p
      | none => "/var/log/backend.ai/manager.log")
      (lnOpt.getD (env.tailLines.getD 100))
    unfold getServiceLogs
    rw [if_neg (by decide)]
    simp only [hdock, List.isEmpty_nil, List.nil_append,
      hfileStepFail env "manager" (lnOpt.getD (env.tailLines.getD 100)) ty _ m
        hp hm]
    exact ⟨_, rfl, rfl⟩

theorem explicit_source_no_cross_fallback_witness :
    (∀ p n, ∃ m, logEnvFail.readFile p n = Except.error m)
    ∧ (∃ msg, getServiceLogs logEnvFail "etcd" none "main" "file" =
        Except.error msg)
    ∧ ∃ r, getServiceLogs logEnvFail "manager" none "main" "file" =
        Except.ok r ∧ r.sources.map (fun s2 => s2.source) = ["mock"] :=
  have hrf : ∀ p n, ∃ m, logEnvFail.readFile p n = Except.error m :=
    fun p _ => ⟨"Log file not found: " ++ p, rfl⟩
  ⟨hrf, explicit_source_no_cross_fallback.2.2.1 logEnvFail none "main" hrf,
    explicit_source_no_cross_fallback.2.2.2 logEnvFail none "main" hrf⟩

end BackendAI
